import Mathlib

/-!
Formal model of authentik/outposts/api/outpost_service_connections.py:
the service-connection API layer (type listing, credential validation,
health-state endpoint) together with the minimal semantics of the two
external frameworks the file is written against, Django REST Framework
(DRF) serializers and the kubernetes python client kubeconfig loader.
Parts of the repository that the file imports but that are not present in
the source tree (the model classes, the reflection helper, the health
probe) are modelled from the specification and marked as such.
-/

/-- A JSON value, the payload type of the kubeconfig field: the DRF
serializer field generated for a Django JSONField accepts an arbitrary
JSON document. -/
inductive Json : Type where
  | null : Json
  | bool (b : Bool) : Json
  | num (n : Int) : Json
  | str (s : String) : Json
  | arr (elems : List Json) : Json
  | obj (entries : List (String × Json)) : Json

/-- Python equality of a JSON value with the empty dict: the check
written in the source as comparing kubeconfig with an empty dict literal
holds exactly for a mapping with no entries (a list, scalar or non-empty
mapping is never equal to an empty dict in Python). -/
def Json.isEmptyDict : Json → Bool
  | Json.obj [] => true
  | _ => false

/-- Failure modes of the kubernetes client function
load_kube_config_from_dict, which the source calls as a black box.
ConfigException is the dedicated error type of the kubernetes config
module; the loader can also raise other Python exception types (for
example TypeError when handed a scalar instead of a mapping). -/
inductive KubeLoadFailure : Type where
  | configException (msg : String) : KubeLoadFailure
  | otherException (typeName msg : String) : KubeLoadFailure

/-- The kubeconfig loader as a black box: behaviour of
load_kube_config_from_dict on a given document (the Configuration object
the source passes in is only an output sink and is dropped here). -/
abbrev KubeLoader : Type := Json → Except KubeLoadFailure Unit

/-- The validated_data mapping of a DRF serializer, restricted to the
field the validator reads. -/
structure ValidatedData : Type where
  localFlag : Bool

/-- The serializer state visible to a field-level validator: whether the
DRF attribute validated_data is available. DRF sets the backing attribute
only after run_validation returns inside is_valid; reading the property
before that raises AssertionError. -/
structure SerializerCtx : Type where
  validatedData : Option ValidatedData

/-- The context in which DRF invokes a validate_(field) hook: the hooks
run inside Serializer.to_internal_value, which is called from is_valid
before the validated_data attribute is assigned, so validated_data is
unavailable there. -/
def fieldValidationCtx : SerializerCtx := { validatedData := none }

/-- Message of the AssertionError raised by the DRF validated_data
property when it is read before is_valid has completed. -/
def drfValidatedDataMsg : String :=
  "You must call `.is_valid()` before accessing `.validated_data`."

/-- Exceptions that can leave the validator: DRF ValidationError,
Python AssertionError, or a backend-library exception propagating
uncaught. -/
inductive PyExc : Type where
  | validationError (msg : String) : PyExc
  | assertionError (msg : String) : PyExc
  | backendException (failure : KubeLoadFailure) : PyExc

/-- KubernetesServiceConnectionSerializer.validate_kubeconfig, translated
clause by clause from the source. On an empty kubeconfig it reads
self.validated_data, which in the field-validation context raises
AssertionError (see fieldValidationCtx); were validated_data available,
a false local flag would raise the ValidationError about local clusters.
On a non-empty kubeconfig it runs the loader, converts a ConfigException
into ValidationError with message Invalid kubeconfig, and lets every
other exception type propagate. -/
def validate_kubeconfig (load_kube_config_from_dict : KubeLoader)
    (ctx : SerializerCtx) (kubeconfig : Json) : Except PyExc Json :=
  if kubeconfig.isEmptyDict then
    match ctx.validatedData with
    | none => Except.error (PyExc.assertionError drfValidatedDataMsg)
    | some vd =>
      if !vd.localFlag then
        Except.error (PyExc.validationError
          "You can only use an empty kubeconfig when connecting to a local cluster.")
      else
        Except.ok kubeconfig
  else
    match load_kube_config_from_dict kubeconfig with
    | Except.error (KubeLoadFailure.configException _) =>
        Except.error (PyExc.validationError "Invalid kubeconfig")
    | Except.error f => Except.error (PyExc.backendException f)
    | Except.ok _ => Except.ok kubeconfig

/-- A loader that accepts every document, used to instantiate theorems at
concrete inputs. -/
def acceptingLoader : KubeLoader := fun _ => Except.ok ()

/-- A loader behaviour that fails with the dedicated ConfigException, as
the kubernetes client does on a structurally invalid kubeconfig mapping. -/
def configFailLoader : KubeLoader :=
  fun _ => Except.error (KubeLoadFailure.configException "Invalid kube-config file.")

/-- A loader behaviour that fails with a non-ConfigException error, as
the kubernetes client does when the document is a scalar: membership
tests against an int raise TypeError. -/
def typeErrorLoader : KubeLoader :=
  fun _ => Except.error
    (KubeLoadFailure.otherException "TypeError" "argument of type int is not iterable")

/-- A scalar JSON document, accepted by the DRF JSONField but not a
mapping. -/
def scalarKubeconfig : Json := Json.num 5

/-- A minimal non-empty kubeconfig document. -/
def sampleKubeconfig : Json := Json.obj [("current-context", Json.str "default")]

/-- Fields of a DockerServiceConnection beyond the base record: endpoint
url and the two opaque certificate references. The name and local flag of
the base entity are carried here as well. -/
structure DockerFields : Type where
  name : String
  localFlag : Bool
  url : String
  tls_verification : String
  tls_authentication : String

/-- Fields of a KubernetesServiceConnection: base entity fields plus the
kubeconfig document. -/
structure KubernetesFields : Type where
  name : String
  localFlag : Bool
  kubeconfig : Json

/-- A fully-typed service connection: the tagged union of the concrete
variants of the OutpostServiceConnection family (the design-note
modelling of subclass polymorphism as a sum type). -/
inductive ConcreteConnection : Type where
  | docker (d : DockerFields) : ConcreteConnection
  | kubernetes (k : KubernetesFields) : ConcreteConnection

/-- The variant discriminator of a concrete connection. -/
inductive VariantKind : Type where
  | docker : VariantKind
  | kubernetes : VariantKind
deriving DecidableEq

/-- Variant kind of a stored connection. -/
def variantKind : ConcreteConnection → VariantKind
  | ConcreteConnection.docker _ => VariantKind.docker
  | ConcreteConnection.kubernetes _ => VariantKind.kubernetes

/-- Python class name of the concrete model class of a connection, the
value of obj._meta.object_name read by the serializer method field. -/
def metaObjectName : ConcreteConnection → String
  | ConcreteConnection.docker _ => "DockerServiceConnection"
  | ConcreteConnection.kubernetes _ => "KubernetesServiceConnection"

/-- Python str.lower on the character sequence of a string. -/
def pyLower (s : List Char) : List Char := s.map Char.toLower

/-- Worker for Python str.replace with an empty replacement: scan left to
right, deleting each non-overlapping occurrence of the pattern. The fuel
argument starts at the input length; each step consumes at least one
input character, so the fuel never runs out before the input does. -/
def removeAux (pat : List Char) : Nat → List Char → List Char
  | _, [] => []
  | 0, rest => rest
  | Nat.succ n, c :: rest =>
    if pat.isPrefixOf (c :: rest) && !pat.isEmpty then
      removeAux pat n (List.drop (pat.length - 1) rest)
    else
      c :: removeAux pat n rest

/-- Python str.replace of a pattern with the empty string: delete every
non-overlapping occurrence, scanning left to right. -/
def pyDeleteSub (pat s : List Char) : List Char := removeAux pat s.length s

/-- ServiceConnectionSerializer.get_object_type: lowercase the concrete
class name and delete the substring serviceconnection, as the source
does with str.lower and str.replace. -/
def get_object_type (objectName : String) : String :=
  String.mk (pyDeleteSub ("serviceconnection".data) (pyLower objectName.data))

/-- The base-entity projection of a connection: what a repository that
downcast to the abstract OutpostServiceConnection row would return
(name and local flag only, variant fields forgotten). -/
structure BaseRecord : Type where
  name : String
  localFlag : Bool

/-- Projection of a concrete connection to the abstract base record. -/
def toBase : ConcreteConnection → BaseRecord
  | ConcreteConnection.docker d => { name := d.name, localFlag := d.localFlag }
  | ConcreteConnection.kubernetes k => { name := k.name, localFlag := k.localFlag }

/-- The repository of persisted connections, keyed by primary key. -/
abbrev Repo : Type := List (Nat × ConcreteConnection)

/-- Modelled from the spec: the repository boundary of
OutpostServiceConnection.objects.select_subclasses() (the model manager
is not under src). Identifier-based retrieval resolves the key and
returns the stored fully-typed variant, not its base projection. -/
def getObject (repo : Repo) (pk : Nat) : Option ConcreteConnection :=
  (List.find? (fun p => p.fst == pk) repo).map Prod.snd

/-- The health value returned by a probe: the two read-only fields of
ServiceConnectionStateSerializer. -/
structure HealthState : Type where
  healthy : Bool
  version : String

/-- Backend failure modes of a health probe named by the spec. -/
inductive ProbeFailure : Type where
  | connectionRefused : ProbeFailure
  | timeout : ProbeFailure
  | authFailure : ProbeFailure
  | protocolError : ProbeFailure

/-- Outcome of the backend interaction of one probe: a reported version,
or one of the failure modes. -/
inductive ProbeOutcome : Type where
  | ok (version : String) : ProbeOutcome
  | failed (f : ProbeFailure) : ProbeOutcome

/-- Modelled from the spec: OutpostServiceConnection.state (the model
property is not under src). Every concrete variant catches all backend
failures of the probe and translates them into an unhealthy HealthState
with an empty version string; a successful probe reports healthy with
the backend version. The function is total on outcomes: no failure mode
is re-raised. -/
def probeHealth : ProbeOutcome → HealthState
  | ProbeOutcome.ok v => { healthy := true, version := v }
  | ProbeOutcome.failed _ => { healthy := false, version := "" }

/-- Backend behaviour during one request: the probe outcome each stored
connection would produce. -/
abbrev ProbeEnv : Type := ConcreteConnection → ProbeOutcome

/-- Errors the state endpoint can signal to the transport layer. -/
inductive ApiError : Type where
  | notFound : ApiError

/-- ServiceConnectionViewSet.state: get_object resolves the identifier
against the select_subclasses queryset, raising a not-found condition
when it does not resolve; otherwise the connection state is computed and
returned as a healthy and version pair. -/
def stateEndpoint (probe : ProbeEnv) (repo : Repo) (pk : Nat) :
    Except ApiError HealthState :=
  match getObject repo pk with
  | none => Except.error ApiError.notFound
  | some c => Except.ok (probeHealth (probe c))

/-- A member of the ServiceConnection class family as seen by runtime
reflection: its verbose name, docstring and the component identifier an
instance reports. -/
structure VariantClass : Type where
  verboseName : String
  doc : String
  component : String
deriving DecidableEq

/-- An entry of the TypeCreateSerializer response. -/
structure TypeCreateEntry : Type where
  name : String
  description : String
  component : String
deriving DecidableEq

/-- Modelled from the spec: authentik.lib.utils.reflection.all_subclasses
(not under src) enumerates the members of a class family by structural
membership in the live hierarchy, with no hand-maintained list. The
family of currently defined variant classes is passed explicitly. -/
def all_subclasses (family : List VariantClass) : List VariantClass :=
  family

/-- Modelled from the spec: authentik.lib.templatetags verbose_name (not
under src) reads the display name off the class. -/
def verbose_name (subclass : VariantClass) : String :=
  subclass.verboseName

/-- The descriptor the types action builds for one subclass: verbose
name, docstring and the component of a fresh instance. -/
def typeDescriptor (subclass : VariantClass) : TypeCreateEntry :=
  { name := verbose_name subclass
    description := subclass.doc
    component := subclass.component }

/-- ServiceConnectionViewSet.types: iterate over all subclasses of the
queryset model and collect one descriptor per subclass. -/
def types (family : List VariantClass) : List TypeCreateEntry :=
  (all_subclasses family).map typeDescriptor

/-- The types action seen at the repository boundary: it reads only the
class family and returns the repository state untouched (the action body
never queries or writes the database). -/
def typesEndpoint (family : List VariantClass) (repo : Repo) :
    List TypeCreateEntry × Repo :=
  (types family, repo)

/-- A persisted KubernetesServiceConnection row as far as the invariant
is concerned: local flag and kubeconfig document. -/
structure KubeRecord : Type where
  localFlag : Bool
  kubeconfig : Json

/-- A write request against the Kubernetes viewset: a create with full
field set, or an update in which each field is present or omitted
(omitted fields keep their stored value and, for the kubeconfig, skip
the field validator, as DRF does for absent fields). -/
inductive KubeOp : Type where
  | create (localFlag : Bool) (kubeconfig : Json) : KubeOp
  | update (idx : Nat) (localFlag : Option Bool) (kubeconfig : Option Json) : KubeOp

/-- Replace the record at an index, leaving the list unchanged when the
index is out of range. -/
def updateAt (st : List KubeRecord) (i : Nat) (f : KubeRecord → KubeRecord) :
    List KubeRecord :=
  match st, i with
  | [], _ => []
  | r :: rest, 0 => f r :: rest
  | r :: rest, Nat.succ j => r :: updateAt rest j f

/-- One write against the Kubernetes serializer: the kubeconfig field,
when present, passes through validate_kubeconfig in the DRF
field-validation context; any exception aborts the request before
anything is persisted, leaving the stored records unchanged. -/
def kubeStep (loader : KubeLoader) (st : List KubeRecord) (op : KubeOp) :
    List KubeRecord :=
  match op with
  | KubeOp.create l k =>
    match validate_kubeconfig loader fieldValidationCtx k with
    | Except.ok kv => st ++ [{ localFlag := l, kubeconfig := kv }]
    | Except.error _ => st
  | KubeOp.update i l? k? =>
    match k? with
    | some k =>
      match validate_kubeconfig loader fieldValidationCtx k with
      | Except.ok kv =>
        updateAt st i (fun r => { localFlag := l?.getD r.localFlag, kubeconfig := kv })
      | Except.error _ => st
    | none =>
      updateAt st i (fun r => { localFlag := l?.getD r.localFlag, kubeconfig := r.kubeconfig })

/-- The records reachable from an empty store by a sequence of writes,
under a given loader behaviour. -/
def kubeRunOps (loader : KubeLoader) (ops : List KubeOp) : List KubeRecord :=
  ops.foldl (kubeStep loader) []

/-- The submission accepted by the Docker viewset serializer. -/
structure DockerSubmission : Type where
  name : String
  localFlag : Bool
  url : String
  tls_verification : String
  tls_authentication : String

/-- DockerServiceConnectionViewSet create: the serializer has no custom
validators in the source, so a submission is persisted as a fully-typed
Docker row under a fresh primary key. -/
def createDocker (repo : Repo) (pk : Nat) (sub : DockerSubmission) : Repo :=
  (pk, ConcreteConnection.docker
    { name := sub.name
      localFlag := sub.localFlag
      url := sub.url
      tls_verification := sub.tls_verification
      tls_authentication := sub.tls_authentication }) :: repo

/-- A validated kubeconfig value is never the empty dict: the empty
branch of the validator cannot return successfully in the
field-validation context. -/
theorem validate_ok_isEmptyDict_false (loader : KubeLoader) (k kv : Json)
    (h : validate_kubeconfig loader fieldValidationCtx k = Except.ok kv) :
    kv.isEmptyDict = false := by
  unfold validate_kubeconfig at h
  cases hk : k.isEmptyDict with
  | true => rw [hk] at h; simp [fieldValidationCtx] at h
  | false =>
    rw [hk] at h
    simp only [Bool.false_eq_true, if_false] at h
    cases hl : loader k with
    | ok u =>
      rw [hl] at h
      simp only [Except.ok.injEq] at h
      rw [← h]
      exact hk
    | error f =>
      cases f <;> rw [hl] at h <;> simp at h

/-- Identifier lookup in a repository with pairwise distinct keys finds
the stored record. -/
theorem getObject_eq_of_mem (repo : Repo) (pk : Nat) (c : ConcreteConnection)
    (hnd : (repo.map Prod.fst).Nodup) (hmem : (pk, c) ∈ repo) :
    getObject repo pk = some c := by
  induction repo with
  | nil => cases hmem
  | cons p rest ih =>
    rcases List.mem_cons.mp hmem with h | h
    · rw [← h]
      simp [getObject, List.find?]
    · have hpkmem : pk ∈ rest.map Prod.fst :=
        List.mem_map.mpr ⟨(pk, c), h, rfl⟩
      have hne : (p.fst == pk) = false := by
        have hnotin := (List.nodup_cons.mp hnd).1
        rw [beq_eq_false_iff_ne]
        intro e
        exact hnotin (e ▸ hpkmem)
      have htail : getObject rest pk = some c :=
        ih (List.nodup_cons.mp hnd).2 h
      simpa [getObject, List.find?, hne] using htail

/-- Every member of the updated list is an untouched member of the old
list or the image of a member under the update function. -/
theorem mem_updateAt (st : List KubeRecord) (i : Nat) (f : KubeRecord → KubeRecord)
    (r : KubeRecord) (h : r ∈ updateAt st i f) :
    r ∈ st ∨ ∃ r₀, r₀ ∈ st ∧ r = f r₀ := by
  induction st generalizing i with
  | nil => simp [updateAt] at h
  | cons a rest ih =>
    cases i with
    | zero =>
      rcases List.mem_cons.mp h with h1 | h1
      · exact Or.inr ⟨a, List.mem_cons_self a rest, h1⟩
      · exact Or.inl (List.mem_cons_of_mem a h1)
    | succ j =>
      rcases List.mem_cons.mp h with h1 | h1
      · exact Or.inl (h1 ▸ List.mem_cons_self a rest)
      · rcases ih j h1 with h2 | ⟨r₀, hr₀, he⟩
        · exact Or.inl (List.mem_cons_of_mem a h2)
        · exact Or.inr ⟨r₀, List.mem_cons_of_mem a hr₀, he⟩

/-- State predicate of the persistence invariant: no stored record has an
empty kubeconfig. -/
def stateOk (st : List KubeRecord) : Prop :=
  ∀ r ∈ st, r.kubeconfig.isEmptyDict = false

/-- One write through the Kubernetes serializer preserves the invariant:
a persisted kubeconfig always went through a successful validation, and
an omitted kubeconfig keeps its previous value. -/
theorem kubeStep_ok (loader : KubeLoader) (st : List KubeRecord) (op : KubeOp)
    (h : stateOk st) : stateOk (kubeStep loader st op) := by
  cases op with
  | create l k =>
    simp only [kubeStep]
    cases hv : validate_kubeconfig loader fieldValidationCtx k with
    | ok kv =>
      intro r hr
      rcases List.mem_append.mp hr with h1 | h1
      · exact h r h1
      · rw [List.mem_singleton.mp h1]
        exact validate_ok_isEmptyDict_false loader k kv hv
    | error e => exact h
  | update i l? k? =>
    cases k? with
    | some k =>
      simp only [kubeStep]
      cases hv : validate_kubeconfig loader fieldValidationCtx k with
      | ok kv =>
        intro r hr
        rcases mem_updateAt st i _ r hr with h1 | ⟨r₀, hr₀, he⟩
        · exact h r h1
        · rw [he]
          exact validate_ok_isEmptyDict_false loader k kv hv
      | error e => exact h
    | none =>
      simp only [kubeStep]
      intro r hr
      rcases mem_updateAt st i _ r hr with h1 | ⟨r₀, hr₀, he⟩
      · exact h r h1
      · rw [he]
        exact h r₀ hr₀

/-- Every state reachable from an empty store satisfies the invariant. -/
theorem kubeRunOps_ok (loader : KubeLoader) (ops : List KubeOp) :
    stateOk (kubeRunOps loader ops) := by
  have gen : ∀ (l : List KubeOp) (st : List KubeRecord), stateOk st →
      stateOk (l.foldl (kubeStep loader) st) := by
    intro l
    induction l with
    | nil => intro st h; exact h
    | cons op rest ih =>
      intro st h
      exact ih (kubeStep loader st op) (kubeStep_ok loader st op h)
  exact gen ops [] (by intro r hr; cases hr)

/-- A sample Docker connection record. -/
def sampleDocker : ConcreteConnection :=
  ConcreteConnection.docker
    { name := "docker-local"
      localFlag := true
      url := "http+unix:///var/run/docker.sock"
      tls_verification := ""
      tls_authentication := "" }

/-- A sample Kubernetes connection record. -/
def sampleKubernetes : ConcreteConnection :=
  ConcreteConnection.kubernetes
    { name := "k8s-cluster"
      localFlag := false
      kubeconfig := sampleKubeconfig }

/-- A backend behaviour whose probes all succeed with a fixed version. -/
def probeAllHealthy : ProbeEnv := fun _ => ProbeOutcome.ok "v1.21.0"

/-- A backend behaviour whose probes all time out. -/
def probeAllTimeout : ProbeEnv := fun _ => ProbeOutcome.failed ProbeFailure.timeout

/-- Reflection view of the DockerServiceConnection class. -/
def dockerVariantClass : VariantClass :=
  { verboseName := "Docker Service-Connection"
    doc := "Service Connection to a Docker endpoint"
    component := "ak-service-connection-docker-form" }

/-- Reflection view of the KubernetesServiceConnection class. -/
def kubernetesVariantClass : VariantClass :=
  { verboseName := "Kubernetes Service-Connection"
    doc := "Service Connection to a Kubernetes cluster"
    component := "ak-service-connection-kubernetes-form" }

/-- Claim C1: the frozen claim states that validating an empty kubeconfig
succeeds exactly when the submission has local set, and otherwise fails
with the ValidationError about local clusters. The code instead reads
self.validated_data inside the field-level validator, before DRF has
assigned it, so every empty-kubeconfig submission raises AssertionError
regardless of the local flag; no empty submission is accepted, the stated
ValidationError is never produced, and nothing is persisted. -/
theorem c1_empty_kubeconfig_always_raises_assertion :
    (∀ loader : KubeLoader,
      validate_kubeconfig loader fieldValidationCtx (Json.obj [])
        = Except.error (PyExc.assertionError drfValidatedDataMsg))
    ∧ ∀ (loader : KubeLoader) (st : List KubeRecord) (l : Bool),
      kubeStep loader st (KubeOp.create l (Json.obj [])) = st := by
  constructor
  · intro loader; rfl
  · intro loader st l; rfl

/-- Claim C2 counterexample: the claim states that no backend-library
exception type ever propagates out of the validator for a non-empty
kubeconfig. The validator catches only ConfigException, so a loader
failure of any other Python exception type, here the TypeError the
kubernetes client raises on a scalar document, leaves the validator
as that backend exception, not as a ValidationError. -/
theorem c2_backend_exception_escapes_validator :
    validate_kubeconfig typeErrorLoader fieldValidationCtx scalarKubeconfig
      = Except.error (PyExc.backendException
          (KubeLoadFailure.otherException "TypeError"
            "argument of type int is not iterable")) := rfl

/-- Claim C2 amended: for a non-empty submitted kubeconfig, a loader
failure raised as ConfigException is caught and re-surfaced uniformly as
ValidationError with message Invalid kubeconfig, while a loader failure
of any other exception type is not caught and propagates to the caller
unchanged. -/
theorem c2_loader_failure_surfacing (loader : KubeLoader) (ctx : SerializerCtx)
    (k : Json) (hk : k.isEmptyDict = false) :
    (∀ msg : String,
      loader k = Except.error (KubeLoadFailure.configException msg) →
      validate_kubeconfig loader ctx k
        = Except.error (PyExc.validationError "Invalid kubeconfig"))
    ∧ ∀ typeName msg : String,
      loader k = Except.error (KubeLoadFailure.otherException typeName msg) →
      validate_kubeconfig loader ctx k
        = Except.error (PyExc.backendException
            (KubeLoadFailure.otherException typeName msg)) := by
  constructor
  · intro msg hl
    unfold validate_kubeconfig
    rw [hk, hl]
    simp
  · intro typeName msg hl
    unfold validate_kubeconfig
    rw [hk, hl]
    simp

/-- Claim C2 amended witness: at a concrete non-empty document and the
ConfigException loader behaviour, the validator returns the uniform
ValidationError. -/
theorem c2_loader_failure_surfacing_witness :
    validate_kubeconfig configFailLoader fieldValidationCtx sampleKubeconfig
      = Except.error (PyExc.validationError "Invalid kubeconfig") :=
  (c2_loader_failure_surfacing configFailLoader fieldValidationCtx
    sampleKubeconfig rfl).1 "Invalid kube-config file." rfl

/-- Claim C3: querying the state of an existing connection is total: for
every backend failure mode the probe outcome is normalized to an
unhealthy HealthState with empty version, and the endpoint answers with
a HealthState value for every backend behaviour whatsoever, never
propagating a backend error to the caller. -/
theorem c3_probe_failures_normalized :
    (∀ f : ProbeFailure,
      probeHealth (ProbeOutcome.failed f) = { healthy := false, version := "" })
    ∧ ∀ (probe : ProbeEnv) (repo : Repo) (pk : Nat) (c : ConcreteConnection),
      getObject repo pk = some c →
      stateEndpoint probe repo pk = Except.ok (probeHealth (probe c)) := by
  constructor
  · intro f; rfl
  · intro probe repo pk c h
    unfold stateEndpoint
    rw [h]

/-- Claim C3 witness: a stored connection whose backend times out still
gets an ordinary unhealthy HealthState answer. -/
theorem c3_probe_failures_normalized_witness :
    stateEndpoint probeAllTimeout [(1, sampleDocker)] 1
      = Except.ok { healthy := false, version := "" } := by
  rw [c3_probe_failures_normalized.2 probeAllTimeout [(1, sampleDocker)] 1
    sampleDocker rfl]
  rfl

/-- Claim C4: the types action enumerates the ServiceConnection family
structurally: one descriptor per subclass, every subclass of the family
appears, every listed descriptor comes from a member of the family, and
extending the family with a new variant class extends the listing by
exactly its descriptor with no change to the action itself. -/
theorem c4_types_enumerates_family (family : List VariantClass) :
    (types family).length = family.length
    ∧ (∀ c : VariantClass, c ∈ family → typeDescriptor c ∈ types family)
    ∧ (∀ d : TypeCreateEntry, d ∈ types family →
        ∃ c : VariantClass, c ∈ family ∧ d = typeDescriptor c)
    ∧ ∀ c : VariantClass,
        types (family ++ [c]) = types family ++ [typeDescriptor c] := by
  refine ⟨?_, ?_, ?_, ?_⟩
  · simp [types, all_subclasses]
  · intro c hc
    exact List.mem_map.mpr ⟨c, hc, rfl⟩
  · intro d hd
    rcases List.mem_map.mp hd with ⟨c, hc, he⟩
    exact ⟨c, hc, he.symm⟩
  · intro c
    simp [types, all_subclasses]

/-- Claim C4 witness: in the family holding the two current variant
classes, the Docker descriptor is listed. -/
theorem c4_types_enumerates_family_witness :
    typeDescriptor dockerVariantClass
      ∈ types [dockerVariantClass, kubernetesVariantClass] :=
  (c4_types_enumerates_family [dockerVariantClass, kubernetesVariantClass]).2.1
    dockerVariantClass (List.mem_cons_self _ _)

/-- Claim C5: the types action has no error conditions and no side
effects: it is a total function into a plain list of descriptors (not an
error-carrying type), an empty class family yields the empty listing,
and the repository state after the endpoint is exactly the state
before. -/
theorem c5_types_pure_and_empty :
    types [] = ([] : List TypeCreateEntry)
    ∧ (∀ (family : List VariantClass) (repo : Repo),
        (typesEndpoint family repo).snd = repo)
    ∧ ∀ (family : List VariantClass) (repo : Repo),
        (typesEndpoint family repo).fst = types family := by
  exact ⟨rfl, fun _ _ => rfl, fun _ _ => rfl⟩

/-- Claim C6: for every identifier, the state endpoint answers with a
HealthState value, a pair of the healthy flag and version string, when
the identifier resolves via the repository, and with a not-found
condition when it does not. -/
theorem c6_state_endpoint_resolution (probe : ProbeEnv) (repo : Repo) (pk : Nat) :
    (∀ c : ConcreteConnection, getObject repo pk = some c →
      ∃ hs : HealthState, stateEndpoint probe repo pk = Except.ok hs)
    ∧ (getObject repo pk = none →
      stateEndpoint probe repo pk = Except.error ApiError.notFound) := by
  constructor
  · intro c h
    refine ⟨probeHealth (probe c), ?_⟩
    unfold stateEndpoint
    rw [h]
  · intro h
    unfold stateEndpoint
    rw [h]

/-- Claim C6 witness: a resolving identifier yields a HealthState and a
non-resolving identifier yields not-found, on a one-record repository. -/
theorem c6_state_endpoint_resolution_witness :
    (∃ hs : HealthState,
      stateEndpoint probeAllHealthy [(1, sampleDocker)] 1 = Except.ok hs)
    ∧ stateEndpoint probeAllHealthy [(1, sampleDocker)] 2
        = Except.error ApiError.notFound :=
  ⟨(c6_state_endpoint_resolution probeAllHealthy [(1, sampleDocker)] 1).1
      sampleDocker rfl,
   (c6_state_endpoint_resolution probeAllHealthy [(1, sampleDocker)] 2).2 rfl⟩

/-- Claim C7: retrieval through the generic endpoint returns the stored
fully-typed variant itself, with its variant kind intact, never the
base-record projection, so the health protocol applies to the result
polymorphically. -/
theorem c7_retrieval_fully_typed (repo : Repo) (pk : Nat) (c : ConcreteConnection)
    (hnd : (repo.map Prod.fst).Nodup) (hmem : (pk, c) ∈ repo) :
    getObject repo pk = some c
    ∧ (getObject repo pk).map variantKind = some (variantKind c)
    ∧ ∀ probe : ProbeEnv,
        stateEndpoint probe repo pk = Except.ok (probeHealth (probe c)) := by
  have h := getObject_eq_of_mem repo pk c hnd hmem
  refine ⟨h, by rw [h]; rfl, ?_⟩
  intro probe
  unfold stateEndpoint
  rw [h]

/-- Claim C7 witness: on a one-record repository the stored Kubernetes
variant comes back as itself. -/
theorem c7_retrieval_fully_typed_witness :
    getObject [(1, sampleKubernetes)] 1 = some sampleKubernetes :=
  (c7_retrieval_fully_typed [(1, sampleKubernetes)] 1 sampleKubernetes
    (List.nodup_singleton 1) (List.mem_cons_self _ _)).1

/-- Claim C8: round-trip for the Docker variant: creating a connection
from a submission and retrieving it by its identifier returns a value
tagged as the Docker variant, never the abstract base, whose name, url
and TLS reference fields equal the submitted values. -/
theorem c8_docker_roundtrip (repo : Repo) (pk : Nat) (sub : DockerSubmission) :
    getObject (createDocker repo pk sub) pk
      = some (ConcreteConnection.docker
          { name := sub.name
            localFlag := sub.localFlag
            url := sub.url
            tls_verification := sub.tls_verification
            tls_authentication := sub.tls_authentication })
    ∧ (getObject (createDocker repo pk sub) pk).map variantKind
        = some VariantKind.docker := by
  have h : getObject (createDocker repo pk sub) pk
      = some (ConcreteConnection.docker
          { name := sub.name
            localFlag := sub.localFlag
            url := sub.url
            tls_verification := sub.tls_verification
            tls_authentication := sub.tls_authentication }) := by
    simp [getObject, createDocker, List.find?]
  exact ⟨h, by rw [h]; rfl⟩

/-- Claim C9: invariant over all persisted Kubernetes records: in every
state reachable from an empty store through the serializer, a record
whose local flag is false has a non-empty kubeconfig. The code even
guarantees the stronger fact that no reachable record has an empty
kubeconfig at all, because every empty-kubeconfig submission aborts in
the validator (see the C1 analysis), so neither a create nor an update,
full or partial, can establish or preserve a non-local record with an
empty kubeconfig. -/
theorem c9_nonlocal_kubeconfig_never_empty (loader : KubeLoader)
    (ops : List KubeOp) (r : KubeRecord)
    (hmem : r ∈ kubeRunOps loader ops) (_hlocal : r.localFlag = false) :
    r.kubeconfig.isEmptyDict = false :=
  kubeRunOps_ok loader ops r hmem

/-- Claim C9 witness: the non-local record created from the sample
kubeconfig is reachable and its kubeconfig is non-empty. -/
theorem c9_nonlocal_kubeconfig_never_empty_witness :
    (KubeRecord.mk false sampleKubeconfig
        ∈ kubeRunOps acceptingLoader [KubeOp.create false sampleKubeconfig])
    ∧ Json.isEmptyDict (KubeRecord.mk false sampleKubeconfig).kubeconfig
        = false := by
  have hmem : KubeRecord.mk false sampleKubeconfig
      ∈ kubeRunOps acceptingLoader [KubeOp.create false sampleKubeconfig] :=
    List.mem_cons_self _ _
  exact ⟨hmem,
    c9_nonlocal_kubeconfig_never_empty acceptingLoader
      [KubeOp.create false sampleKubeconfig]
      (KubeRecord.mk false sampleKubeconfig) hmem rfl⟩

/-- Claim C10: the object_type discriminator is computed from the
concrete class name by lowercasing and deleting the substring
serviceconnection: a DockerServiceConnection yields docker, a
KubernetesServiceConnection yields kubernetes, and any two connections
of the same concrete variant report the same object_type. -/
theorem c10_object_type_discriminator :
    get_object_type "DockerServiceConnection" = "docker"
    ∧ get_object_type "KubernetesServiceConnection" = "kubernetes"
    ∧ (∀ c : ConcreteConnection, variantKind c = VariantKind.docker →
        get_object_type (metaObjectName c) = "docker")
    ∧ (∀ c : ConcreteConnection, variantKind c = VariantKind.kubernetes →
        get_object_type (metaObjectName c) = "kubernetes")
    ∧ ∀ c₁ c₂ : ConcreteConnection, variantKind c₁ = variantKind c₂ →
        get_object_type (metaObjectName c₁) = get_object_type (metaObjectName c₂) := by
  have hd : get_object_type "DockerServiceConnection" = "docker" := by decide
  have hk : get_object_type "KubernetesServiceConnection" = "kubernetes" := by
    decide
  refine ⟨hd, hk, ?_, ?_, ?_⟩
  · intro c hc
    cases c with
    | docker d => exact hd
    | kubernetes k => simp [variantKind] at hc
  · intro c hc
    cases c with
    | docker d => simp [variantKind] at hc
    | kubernetes k => exact hk
  · intro c₁ c₂ hc
    cases c₁ <;> cases c₂ <;> simp [variantKind] at hc <;> rfl

/-- Claim C10 witness: the sample Docker connection reports object_type
docker. -/
theorem c10_object_type_discriminator_witness :
    get_object_type (metaObjectName sampleDocker) = "docker" :=
  c10_object_type_discriminator.2.2.1 sampleDocker rfl
